import Mathlib

/-!
Verification of the S3-to-S3 bucket migration engine (src/main.py).

The Python source is shallowly embedded: remote calls are modelled by their
post-retry outcomes (an `Except` value per call), the retrier is modelled as a
fuel-indexed loop that records invocations and sleep durations, and the
per-bucket / per-run aggregation loops are modelled as folds over the
enumerated object list.
-/

namespace CloneS3

/-- Classification of exceptions raised by remote calls, mirroring the
exception types distinguished in src/main.py: botocore ClientError (carrying
an error code), Python ConnectionError / TimeoutError, and any other
exception. -/
inductive ErrorKind where
  | clientError (code : String)
  | connectionError
  | timeoutError
  | otherError (msg : String)
  deriving DecidableEq

/-- The retriable error codes of src/main.py lines 30-40. -/
def RETRIABLE_ERROR_CODES : List String :=
  ["RequestTimeout", "RequestTimeTooSkewed", "InternalError", "ServiceUnavailable",
   "SlowDown", "OperationAborted", "ConnectionError", "ConnectTimeoutError",
   "ReadTimeoutError"]

/-- An error is transient (caught and retried by retry_operation) when it is a
ClientError whose code is in RETRIABLE_ERROR_CODES, or a ConnectionError /
TimeoutError.  Every other error propagates out of the retry loop at once
(src/main.py lines 62-80). -/
def isTransient : ErrorKind → Bool
  | ErrorKind.clientError code => RETRIABLE_ERROR_CODES.contains code
  | ErrorKind.connectionError => true
  | ErrorKind.timeoutError => true
  | ErrorKind.otherError _ => false

/-- Observable behaviour of one call to retry_operation: the returned value
(ok (some a)), the Python None return (ok none), or the re-raised exception
(error e); the number of times the wrapped operation was invoked; and the
list of sleep durations performed, in order. -/
structure RetryTrace (α : Type) where
  result : Except ErrorKind (Option α)
  invocations : Nat
  sleeps : List Nat

/-- The while-loop of retry_operation (src/main.py lines 59-80).  `fuel` is
the number of loop iterations still allowed (max_retries - retry_count), and
`retryCount` the Python retry_count, which also indexes the next invocation
of the wrapped operation `op`. -/
def retry_loop {α : Type} (op : Nat → Except ErrorKind α) (retry_delay : Nat) :
    Nat → Nat → Option ErrorKind → RetryTrace α
  | 0, _, lastExc =>
    { result := match lastExc with
        | some e => Except.error e
        | none => Except.ok none,
      invocations := 0, sleeps := [] }
  | fuel + 1, retryCount, _ =>
    match op retryCount with
    | Except.ok a => { result := Except.ok (some a), invocations := 1, sleeps := [] }
    | Except.error e =>
      if isTransient e then
        let wait := retry_delay * 2 ^ retryCount
        let rest := retry_loop op retry_delay fuel (retryCount + 1) (some e)
        { result := rest.result, invocations := rest.invocations + 1,
          sleeps := wait :: rest.sleeps }
      else
        { result := Except.error e, invocations := 1, sleeps := [] }

/-- retry_operation (src/main.py lines 42-87).  `op k` is the outcome of the
k-th invocation (0-based) of the wrapped remote call.  max_retries is a
Python int, so it is modelled as an Int. -/
def retry_operation {α : Type} (op : Nat → Except ErrorKind α)
    (max_retries : Int) (retry_delay : Nat) : RetryTrace α :=
  retry_loop op retry_delay max_retries.toNat 0 none

theorem retry_loop_succ {α : Type} (op : Nat → Except ErrorKind α) (d fuel rc : Nat)
    (last : Option ErrorKind) :
    retry_loop op d (fuel + 1) rc last =
      match op rc with
      | Except.ok a => { result := Except.ok (some a), invocations := 1, sleeps := [] }
      | Except.error e =>
        if isTransient e then
          { result := (retry_loop op d fuel (rc + 1) (some e)).result,
            invocations := (retry_loop op d fuel (rc + 1) (some e)).invocations + 1,
            sleeps := d * 2 ^ rc :: (retry_loop op d fuel (rc + 1) (some e)).sleeps }
        else { result := Except.error e, invocations := 1, sleeps := [] } := rfl

theorem retry_loop_all_transient {α : Type} (op : Nat → Except ErrorKind α) (d : Nat)
    (e : Nat → ErrorKind) (hop : ∀ k, op k = Except.error (e k))
    (htr : ∀ k, isTransient (e k) = true) :
    ∀ (fuel r : Nat) (last : Option ErrorKind), 1 ≤ fuel →
      retry_loop op d fuel r last =
        { result := Except.error (e (r + fuel - 1)), invocations := fuel,
          sleeps := (List.range' r fuel).map fun k => d * 2 ^ k } := by
  intro fuel
  induction fuel with
  | zero => intro r last h; omega
  | succ f ih =>
    intro r last _
    rw [retry_loop_succ, hop r]
    cases f with
    | zero =>
      simp [retry_loop, htr r, List.range']
    | succ f2 =>
      have hrec := ih (r + 1) (some (e r)) (by omega)
      have harg : r + 1 + (f2 + 1) - 1 = r + (f2 + 1 + 1) - 1 := by omega
      simp [htr r, hrec, harg, List.range'_succ]

/-- C2: with a retry budget max_retries ≥ 1, an operation failing with a
transient error on every invocation is invoked exactly max_retries times,
with sleep retry_delay * 2 ^ (attempt - 1) recorded around attempt number
`attempt` (1-based), and the last transient error is then re-raised; an
operation failing with a permanent error on its first invocation has its
error re-raised at once, after exactly one invocation and no sleeps. -/
theorem retry_budget {α : Type} (op : Nat → Except ErrorKind α) (max_retries : Int)
    (d : Nat) (e : Nat → ErrorKind) (hmr : 1 ≤ max_retries) :
    ((∀ k, op k = Except.error (e k)) → (∀ k, isTransient (e k) = true) →
      retry_operation op max_retries d =
        { result := Except.error (e (max_retries.toNat - 1)),
          invocations := max_retries.toNat,
          sleeps := (List.range max_retries.toNat).map fun k => d * 2 ^ k }) ∧
    (∀ e0, op 0 = Except.error e0 → isTransient e0 = false →
      retry_operation op max_retries d =
        { result := Except.error e0, invocations := 1, sleeps := [] }) := by
  have htn : 1 ≤ max_retries.toNat := by omega
  constructor
  · intro hop htr
    have h := retry_loop_all_transient op d e hop htr max_retries.toNat 0 none htn
    unfold retry_operation
    rw [List.range_eq_range']
    simpa using h
  · intro e0 h0 hperm
    obtain ⟨t, ht⟩ : ∃ t, max_retries.toNat = t + 1 := ⟨max_retries.toNat - 1, by omega⟩
    unfold retry_operation
    rw [ht]
    simp [retry_loop, h0, hperm]

/-- Witness for C2 at max_retries = 3, retry_delay = 2, with an always-failing
connection error and with a permanent AccessDenied client error. -/
theorem retry_budget_witness :
    (1 ≤ (3 : Int)) ∧
    retry_operation (fun _ => (Except.error ErrorKind.connectionError : Except ErrorKind Nat)) 3 2 =
      { result := Except.error ErrorKind.connectionError,
        invocations := (3 : Int).toNat,
        sleeps := (List.range (3 : Int).toNat).map fun k => 2 * 2 ^ k } ∧
    retry_operation (fun _ => (Except.error (ErrorKind.clientError "AccessDenied") : Except ErrorKind Nat)) 3 2 =
      { result := Except.error (ErrorKind.clientError "AccessDenied"),
        invocations := 1, sleeps := [] } :=
  ⟨by decide,
   (retry_budget (fun _ => Except.error ErrorKind.connectionError) 3 2
      (fun _ => ErrorKind.connectionError) (by decide)).1 (fun _ => rfl) (fun _ => rfl),
   (retry_budget (fun _ => Except.error (ErrorKind.clientError "AccessDenied")) 3 2
      (fun _ => ErrorKind.clientError "AccessDenied") (by decide)).2
      (ErrorKind.clientError "AccessDenied") rfl (by decide)⟩

/-- C10: a non-positive retry budget makes retry_operation return None with
zero invocations of the wrapped operation and no error raised
(src/main.py: the while loop body never runs and last_exception stays None). -/
theorem retry_nonpositive_budget {α : Type} (op : Nat → Except ErrorKind α)
    (max_retries : Int) (d : Nat) (h : max_retries ≤ 0) :
    retry_operation op max_retries d =
      { result := Except.ok none, invocations := 0, sleeps := [] } := by
  unfold retry_operation
  rw [Int.toNat_of_nonpos h]
  rfl

/-- Witness for C10 at max_retries = 0 with an operation that would succeed. -/
theorem retry_nonpositive_budget_witness :
    ((0 : Int) ≤ 0) ∧
    retry_operation (fun _ => (Except.ok 7 : Except ErrorKind Nat)) 0 2 =
      { result := Except.ok none, invocations := 0, sleeps := [] } :=
  ⟨by decide, retry_nonpositive_budget (fun _ => Except.ok 7) 0 2 (by decide)⟩

/-- Part count of _multipart_copy (src/main.py line 469):
part_count = (size + self.chunk_size - 1) // self.chunk_size. -/
def part_count (size chunk_size : Nat) : Nat := (size + chunk_size - 1) / chunk_size

/-- The parts computed by the loop of _multipart_copy (src/main.py lines
473-479): for i in range(part_count), part number i + 1, byte range from
start_byte = i * chunk_size to end_byte = min(start_byte + chunk_size - 1,
size - 1).  Each entry is (partNumber, startByte, endByte). -/
def part_specs (chunk_size size : Nat) : List (Nat × Nat × Nat) :=
  (List.range (part_count size chunk_size)).map fun i =>
    (i + 1, i * chunk_size, min (i * chunk_size + chunk_size - 1) (size - 1))

/-- Number of bytes covered by one part's byte range (both ends inclusive). -/
def part_spec_len (p : Nat × Nat × Nat) : Nat := p.2.2 - p.2.1 + 1

/-- The routing test of _copy_object (src/main.py line 383):
direct transfer iff self.direct_read or size <= self.max_direct_size. -/
def usesDirect (direct_read : Bool) (max_direct_size size : Nat) : Bool :=
  direct_read || decide (size ≤ max_direct_size)

theorem part_count_pos (size c : Nat) (hs : 0 < size) (hc : 0 < c) :
    1 ≤ part_count size c := by
  unfold part_count
  rw [Nat.one_le_div_iff hc]
  omega

theorem size_le_mul_part_count (size c : Nat) (hc : 0 < c) :
    size ≤ part_count size c * c := by
  unfold part_count
  by_contra hno
  push_neg at hno
  have h1 : ((size + c - 1) / c + 1) * c ≤ size + c - 1 := by
    rw [Nat.succ_mul]
    omega
  have h2 := (Nat.le_div_iff_mul_le hc).2 h1
  omega

theorem mul_pred_part_count_lt (size c : Nat) (hs : 0 < size) (hc : 0 < c) :
    (part_count size c - 1) * c < size := by
  have h1 : part_count size c * c ≤ size + c - 1 := by
    unfold part_count
    exact Nat.div_mul_le_self _ _
  have h2 := part_count_pos size c hs hc
  have h3 : (part_count size c - 1) * c = part_count size c * c - c := by
    rw [Nat.sub_mul, Nat.one_mul]
  omega

theorem sum_range_sub (f : Nat → Nat) (mono : ∀ i, f i ≤ f (i + 1)) :
    ∀ n, ((List.range n).map fun i => f (i + 1) - f i).sum = f n - f 0 := by
  have hmono : Monotone f := monotone_nat_of_le_succ mono
  intro n
  induction n with
  | zero => simp
  | succ m ih =>
    rw [List.range_succ, List.map_append, List.sum_append, ih]
    have h1 : f 0 ≤ f m := hmono (Nat.zero_le m)
    have h2 : f m ≤ f (m + 1) := mono m
    simp only [List.map_cons, List.map_nil, List.sum_cons, List.sum_nil]
    omega

theorem part_spec_len_eq (size c n i : Nat) (hc : 0 < c) (hs : 0 < size)
    (hn : n = part_count size c) (hi : i < n) :
    part_spec_len (i + 1, i * c, min (i * c + c - 1) (size - 1)) =
      min ((i + 1) * c) size - min (i * c) size := by
  have hic : i * c < size := by
    have h1 : i * c ≤ (n - 1) * c := Nat.mul_le_mul_right c (by omega)
    have h2 := mul_pred_part_count_lt size c hs hc
    rw [← hn] at h2
    omega
  have hsucc : (i + 1) * c = i * c + c := Nat.succ_mul i c
  unfold part_spec_len
  simp only [hsucc]
  rcases Nat.le_total (i * c + c) size with h | h
  · rw [Nat.min_eq_left (by omega), Nat.min_eq_left (by omega),
      Nat.min_eq_left (by omega)]
    omega
  · rw [Nat.min_eq_right (by omega), Nat.min_eq_right (by omega),
      Nat.min_eq_left (by omega)]
    omega

theorem part_specs_sum (size c : Nat) (hs : 0 < size) (hc : 0 < c) :
    ((part_specs c size).map part_spec_len).sum = size := by
  unfold part_specs
  rw [List.map_map]
  have hcong : ∀ i ∈ List.range (part_count size c),
      (part_spec_len ∘ fun i => (i + 1, i * c, min (i * c + c - 1) (size - 1))) i =
        (fun i => (fun j => min (j * c) size) (i + 1) - (fun j => min (j * c) size) i) i := by
    intro i hi
    rw [List.mem_range] at hi
    exact part_spec_len_eq size c (part_count size c) i hc hs rfl hi
  rw [List.map_congr_left hcong]
  have hmono : ∀ j, min (j * c) size ≤ min ((j + 1) * c) size := by
    intro j
    exact min_le_min (Nat.mul_le_mul_right c (Nat.le_succ j)) le_rfl
  rw [sum_range_sub (fun j => min (j * c) size) hmono (part_count size c)]
  have hfin : min (part_count size c * c) size = size :=
    Nat.min_eq_right (size_le_mul_part_count size c hc)
  simp [hfin]

/-- C4: for object size > 0 and chunk size c > 0, the multipart transfer
uploads exactly ceil(size / c) parts (part_count, characterized by
(part_count - 1) * c < size ≤ part_count * c); part i (0-based) covers byte
range from i * c to min ((i + 1) * c - 1) (size - 1) and carries part number
i + 1; the final part ends at byte size - 1; the part range lengths sum to
size; and with direct-read disabled and max-direct-size 500 MB a 1 KB object
is routed to direct transfer while a 600 MB object is routed to multipart
transfer with ceil(600MB / 8MB) = 75 parts. -/
theorem multipart_part_ranges (size c : Nat) (hs : 0 < size) (hc : 0 < c) :
    (part_specs c size).length = part_count size c ∧
    (part_count size c - 1) * c < size ∧ size ≤ part_count size c * c ∧
    (∀ i, i < part_count size c →
      (part_specs c size)[i]? = some (i + 1, i * c, min ((i + 1) * c - 1) (size - 1))) ∧
    (part_specs c size).getLast? =
      some (part_count size c, (part_count size c - 1) * c, size - 1) ∧
    ((part_specs c size).map part_spec_len).sum = size ∧
    usesDirect false (500 * 1024 * 1024) 1024 = true ∧
    usesDirect false (500 * 1024 * 1024) (600 * 1024 * 1024) = false ∧
    part_count (600 * 1024 * 1024) (8 * 1024 * 1024) = 75 := by
  have hidx : ∀ i, i < part_count size c →
      (part_specs c size)[i]? = some (i + 1, i * c, min ((i + 1) * c - 1) (size - 1)) := by
    intro i hi
    unfold part_specs
    rw [List.getElem?_map, List.getElem?_range hi]
    simp [Nat.succ_mul]
  refine ⟨?_, mul_pred_part_count_lt size c hs hc, size_le_mul_part_count size c hc,
    hidx, ?_, part_specs_sum size c hs hc, by decide, by decide, by decide⟩
  · unfold part_specs
    simp
  · have hlen : (part_specs c size).length = part_count size c := by
      unfold part_specs
      simp
    have hpos := part_count_pos size c hs hc
    rw [List.getLast?_eq_getElem?, hlen]
    rw [hidx (part_count size c - 1) (by omega)]
    have h1 : part_count size c - 1 + 1 = part_count size c := by omega
    have h2 : min ((part_count size c - 1 + 1) * c - 1) (size - 1) = size - 1 := by
      rw [h1]
      exact Nat.min_eq_right (by have := size_le_mul_part_count size c hc; omega)
    rw [h2, h1]

/-- Witness for C4 at size = 5, chunk size = 2 (3 parts: ranges 0-1, 2-3,
4-4), together with the concrete routing facts. -/
theorem multipart_part_ranges_witness :
    (0 < 5 ∧ 0 < 2) ∧
    ((part_specs 2 5).map part_spec_len).sum = 5 ∧
    (part_specs 2 5).getLast? = some (part_count 5 2, (part_count 5 2 - 1) * 2, 5 - 1) ∧
    part_count (600 * 1024 * 1024) (8 * 1024 * 1024) = 75 :=
  ⟨⟨by decide, by decide⟩,
   (multipart_part_ranges 5 2 (by decide) (by decide)).2.2.2.2.2.1,
   (multipart_part_ranges 5 2 (by decide) (by decide)).2.2.2.2.1,
   (multipart_part_ranges 5 2 (by decide) (by decide)).2.2.2.2.2.2.2.2⟩

/-- An object enumerated by _list_all_objects: its Key and Size entries. -/
structure ObjectRecord where
  key : String
  size : Nat
  deriving DecidableEq

/-- Result of future.result() for one submitted _copy_object task
(src/main.py lines 248-268): either the returned pair (copied, size), or an
exception raised out of the task. -/
inductive TaskResult where
  | value (copied : Bool) (bytes : Nat)
  | raised
  deriving DecidableEq

/-- The per-bucket aggregation state of migrate_bucket (src/main.py lines
236-239): copied_objects, failed_objects, total_bytes, failed_keys. -/
structure BucketReport where
  copied_objects : Nat
  failed_objects : Nat
  total_bytes : Nat
  failed_keys : List String
  deriving DecidableEq

/-- One iteration of the as_completed collection loop (src/main.py lines
248-268): a (True, size) result increments copied_objects and adds size to
total_bytes; a (False, _) result or a raised exception increments
failed_objects and appends the object's key to failed_keys. -/
def collect_result (r : BucketReport) (obj : ObjectRecord) : TaskResult → BucketReport
  | TaskResult.value true bytes =>
    { r with copied_objects := r.copied_objects + 1, total_bytes := r.total_bytes + bytes }
  | TaskResult.value false _ =>
    { r with failed_objects := r.failed_objects + 1, failed_keys := r.failed_keys ++ [obj.key] }
  | TaskResult.raised =>
    { r with failed_objects := r.failed_objects + 1, failed_keys := r.failed_keys ++ [obj.key] }

/-- migrate_bucket's aggregation over the enumerated object list, with the
objects taken in the order their futures complete; `res` gives each task's
result (src/main.py lines 229-268). -/
def migrate_bucket (objects : List ObjectRecord) (res : ObjectRecord → TaskResult) :
    BucketReport :=
  objects.foldl (fun r obj => collect_result r obj (res obj)) ⟨0, 0, 0, []⟩

/-- The failed-keys persistence step of migrate_bucket (src/main.py lines
275-288): a file (modelled by its list of lines) is written only in the
branch where failed_objects > 10; it then receives every failed key in
order. -/
def failed_keys_file (r : BucketReport) : Option (List String) :=
  if r.failed_objects > 0 then
    if r.failed_objects ≤ 10 then none
    else some r.failed_keys
  else none

/-- The keys shown in the log by migrate_bucket (src/main.py lines 275-280):
all of them when at most 10 objects failed, otherwise only the first 10. -/
def logged_failed_keys (r : BucketReport) : List String :=
  if r.failed_objects > 0 then
    if r.failed_objects ≤ 10 then r.failed_keys else r.failed_keys.take 10
  else []

theorem collect_result_counts (r : BucketReport) (obj : ObjectRecord) (t : TaskResult) :
    (collect_result r obj t).copied_objects + (collect_result r obj t).failed_objects
      = r.copied_objects + r.failed_objects + 1 ∧
    (collect_result r obj t).failed_keys.length + r.failed_objects
      = (collect_result r obj t).failed_objects + r.failed_keys.length := by
  cases t with
  | value copied bytes => cases copied <;> simp [collect_result] <;> omega
  | raised => simp [collect_result] <;> omega

theorem migrate_bucket_foldl_counts (res : ObjectRecord → TaskResult) :
    ∀ (objects : List ObjectRecord) (r : BucketReport),
      (objects.foldl (fun r obj => collect_result r obj (res obj)) r).copied_objects +
        (objects.foldl (fun r obj => collect_result r obj (res obj)) r).failed_objects
        = r.copied_objects + r.failed_objects + objects.length ∧
      (objects.foldl (fun r obj => collect_result r obj (res obj)) r).failed_keys.length +
          r.failed_objects
        = (objects.foldl (fun r obj => collect_result r obj (res obj)) r).failed_objects +
          r.failed_keys.length := by
  intro objects
  induction objects with
  | nil =>
    intro r
    constructor <;> simp <;> omega
  | cons a l ih =>
    intro r
    rw [List.foldl_cons]
    have h11 := (collect_result_counts r a (res a)).1
    have h12 := (collect_result_counts r a (res a)).2
    have h21 := (ih (collect_result r a (res a))).1
    have h22 := (ih (collect_result r a (res a))).2
    simp only [List.length_cons]
    constructor <;> omega

theorem migrate_bucket_failed_keys_length (objects : List ObjectRecord)
    (res : ObjectRecord → TaskResult) :
    (migrate_bucket objects res).failed_keys.length
      = (migrate_bucket objects res).failed_objects := by
  have h := (migrate_bucket_foldl_counts res objects ⟨0, 0, 0, []⟩).2
  unfold migrate_bucket
  simpa using h

/-- C3: for every bucket, the aggregated counters of migrate_bucket satisfy
copied_objects + failed_objects = number of enumerated objects: every
enumerated object contributes exactly one outcome, a success or a failure
(and each failure appends exactly one key, so failed_keys has length
failed_objects). -/
theorem bucket_counters_invariant (objects : List ObjectRecord)
    (res : ObjectRecord → TaskResult) :
    (migrate_bucket objects res).copied_objects + (migrate_bucket objects res).failed_objects
      = objects.length ∧
    (migrate_bucket objects res).failed_keys.length
      = (migrate_bucket objects res).failed_objects := by
  refine ⟨?_, migrate_bucket_failed_keys_length objects res⟩
  have h := (migrate_bucket_foldl_counts res objects ⟨0, 0, 0, []⟩).1
  unfold migrate_bucket
  simpa using h

/-- C1 counterexample: a bucket migration in which exactly one object fails
persists nothing — failed_keys_file is none, so the failed key "k" is not
written to any file, contradicting the claim that the list is persisted
whenever at least one object fails. -/
theorem failed_keys_file_counterexample :
    (migrate_bucket [⟨"k", 1⟩] fun _ => TaskResult.value false 0).failed_objects = 1 ∧
    (migrate_bucket [⟨"k", 1⟩] fun _ => TaskResult.value false 0).failed_keys = ["k"] ∧
    failed_keys_file (migrate_bucket [⟨"k", 1⟩] fun _ => TaskResult.value false 0) = none :=
  ⟨rfl, rfl, rfl⟩

/-- C1 (amended): the failed-keys file is written only when more than 10
objects failed, and it then contains the full ordered failed-key list while
the log shows only the first 10 keys; with 1 to 10 failures no file is
written and the log shows every failed key. -/
theorem failed_keys_file_amended (objects : List ObjectRecord)
    (res : ObjectRecord → TaskResult) :
    (10 < (migrate_bucket objects res).failed_objects →
      failed_keys_file (migrate_bucket objects res)
          = some (migrate_bucket objects res).failed_keys ∧
      logged_failed_keys (migrate_bucket objects res)
          = (migrate_bucket objects res).failed_keys.take 10) ∧
    ((migrate_bucket objects res).failed_objects ≤ 10 →
      failed_keys_file (migrate_bucket objects res) = none ∧
      logged_failed_keys (migrate_bucket objects res)
          = (migrate_bucket objects res).failed_keys) ∧
    (migrate_bucket objects res).failed_keys.length
      = (migrate_bucket objects res).failed_objects := by
  refine ⟨?_, ?_, migrate_bucket_failed_keys_length objects res⟩
  · intro h
    constructor
    · unfold failed_keys_file
      rw [if_pos (by omega), if_neg (by omega)]
    · unfold logged_failed_keys
      rw [if_pos (by omega), if_neg (by omega)]
  · intro h
    rcases Nat.eq_zero_or_pos (migrate_bucket objects res).failed_objects with h0 | h0
    · have hk : (migrate_bucket objects res).failed_keys = [] := by
        have hlen := migrate_bucket_failed_keys_length objects res
        rw [h0] at hlen
        exact List.length_eq_zero.1 hlen
      unfold failed_keys_file logged_failed_keys
      rw [hk, h0]
      simp
    · unfold failed_keys_file logged_failed_keys
      rw [if_pos (by omega), if_pos (by omega), if_pos (by omega), if_pos (by omega)]
      exact ⟨rfl, rfl⟩

/-- Witness for C1 (amended) at a migration with 11 failing objects: the
file is written and holds all 11 keys. -/
theorem failed_keys_file_amended_witness :
    10 < (migrate_bucket (List.replicate 11 ⟨"k", 1⟩) fun _ => TaskResult.value false 0).failed_objects ∧
    failed_keys_file (migrate_bucket (List.replicate 11 ⟨"k", 1⟩) fun _ => TaskResult.value false 0)
      = some (migrate_bucket (List.replicate 11 ⟨"k", 1⟩) fun _ => TaskResult.value false 0).failed_keys ∧
    (migrate_bucket (List.replicate 11 ⟨"k", 1⟩) fun _ => TaskResult.value false 0).failed_keys
      = List.replicate 11 "k" :=
  ⟨by decide,
   ((failed_keys_file_amended (List.replicate 11 ⟨"k", 1⟩) fun _ => TaskResult.value false 0).1
      (by decide)).1,
   by decide⟩

/-- Outcome of the per-bucket try-block of migrate_all_buckets (src/main.py
lines 173-191): either every step succeeded — migrate_bucket returned
(objects, bytes) and the recount enumeration returned bucketTotal — or some
step (ensure-bucket, enumeration, migration, recount) raised. -/
inductive BucketRun where
  | ok (objects bytes bucketTotal : Nat)
  | raises
  deriving DecidableEq

/-- Aggregate state of migrate_all_buckets (src/main.py lines 165-168),
together with the list of buckets whose loop iteration ran to its end. -/
structure MigrationTotals where
  total_objects : Nat
  total_bytes : Nat
  total_failed : Int
  processed : List String
  deriving DecidableEq

/-- One iteration of the bucket loop of migrate_all_buckets (src/main.py
lines 172-195): on success, add the per-bucket numbers and count
bucketTotal - objects failures; on an exception, catch it and count exactly
one failure for the bucket. -/
def migrate_step (run : String → BucketRun) (t : MigrationTotals) (b : String) :
    MigrationTotals :=
  match run b with
  | BucketRun.ok objs bytes btotal =>
    { total_objects := t.total_objects + objs,
      total_bytes := t.total_bytes + bytes,
      total_failed := t.total_failed + ((btotal : Int) - (objs : Int)),
      processed := t.processed ++ [b] }
  | BucketRun.raises =>
    { t with total_failed := t.total_failed + 1, processed := t.processed ++ [b] }

/-- migrate_all_buckets (src/main.py lines 162-215): iterate the bucket list
sequentially, each bucket in its own try/except. -/
def migrate_all_buckets (buckets : List String) (run : String → BucketRun) :
    MigrationTotals :=
  buckets.foldl (migrate_step run) ⟨0, 0, 0, []⟩

/-- Per-bucket contribution to total_failed. -/
def bucket_failure_contribution (run : String → BucketRun) (b : String) : Int :=
  match run b with
  | BucketRun.ok objs _ btotal => (btotal : Int) - (objs : Int)
  | BucketRun.raises => 1

theorem migrate_all_foldl (run : String → BucketRun) :
    ∀ (buckets : List String) (t : MigrationTotals),
      (buckets.foldl (migrate_step run) t).processed = t.processed ++ buckets ∧
      (buckets.foldl (migrate_step run) t).total_failed
        = t.total_failed + (buckets.map (bucket_failure_contribution run)).sum := by
  intro buckets
  induction buckets with
  | nil =>
    intro t
    constructor <;> simp
  | cons b l ih =>
    intro t
    rw [List.foldl_cons]
    have h1 := (ih (migrate_step run t b)).1
    have h2 := (ih (migrate_step run t b)).2
    constructor
    · rw [h1]
      unfold migrate_step
      cases run b <;> simp
    · rw [h2]
      simp only [List.map_cons, List.sum_cons]
      unfold migrate_step bucket_failure_contribution
      cases run b <;> simp <;> ring

/-- C8: an exception raised while migrating one bucket (including its
ensure-bucket and enumeration steps) is caught by migrate_all_buckets,
contributes exactly 1 to the aggregate failure count, and every remaining
bucket in the list is still iterated: processed equals the full bucket list
and total_failed is the sum of per-bucket contributions, where a raising
bucket contributes exactly 1. -/
theorem bucket_failure_isolation (buckets : List String) (run : String → BucketRun) :
    (migrate_all_buckets buckets run).processed = buckets ∧
    (migrate_all_buckets buckets run).total_failed
      = (buckets.map (bucket_failure_contribution run)).sum ∧
    ∀ b, run b = BucketRun.raises → bucket_failure_contribution run b = 1 := by
  have h := migrate_all_foldl run buckets ⟨0, 0, 0, []⟩
  refine ⟨?_, ?_, ?_⟩
  · have := h.1
    simpa [migrate_all_buckets] using this
  · have := h.2
    simpa [migrate_all_buckets] using this
  · intro b hb
    unfold bucket_failure_contribution
    rw [hb]

/-- Witness for C8: two buckets where the second one raises; both are
processed and the raising bucket contributes exactly one failure. -/
theorem bucket_failure_isolation_witness :
    (migrate_all_buckets ["a", "b"]
        fun b => if b = "b" then BucketRun.raises else BucketRun.ok 1 0 1).processed
      = ["a", "b"] ∧
    (migrate_all_buckets ["a", "b"]
        fun b => if b = "b" then BucketRun.raises else BucketRun.ok 1 0 1).total_failed
      = (["a", "b"].map (bucket_failure_contribution
          fun b => if b = "b" then BucketRun.raises else BucketRun.ok 1 0 1)).sum ∧
    bucket_failure_contribution
        (fun b => if b = "b" then BucketRun.raises else BucketRun.ok 1 0 1) "b" = 1 :=
  ⟨(bucket_failure_isolation ["a", "b"] _).1,
   (bucket_failure_isolation ["a", "b"] _).2.1,
   (bucket_failure_isolation ["a", "b"] _).2.2 "b" (by decide)⟩

/-- Remote S3 calls an object transfer can issue, with enough structure to
tell metadata calls from data-moving calls. -/
inductive S3Call where
  | headObject (key : String)
  | getObject (key : String)
  | putObject (key : String)
  | createMultipartUpload (key : String)
  | getObjectRange (key : String) (startByte endByte : Nat)
  | uploadPart (key : String) (partNumber : Nat)
  | completeMultipartUpload (key : String)
  | abortMultipartUpload (key : String)
  deriving DecidableEq

/-- Post-retry outcomes of the remote calls one object's transfer makes:
head and head2 are the target head_object results of the two skip checks
(src/main.py lines 354 and 439), carrying ContentLength on success; the
others are the direct-path get_object / put_object, and the multipart
create_multipart_upload, per-part range get_object, per-part upload_part,
complete_multipart_upload and abort_multipart_upload outcomes.  The abort
outcome is never consulted by the control flow: an abort failure is only
logged (src/main.py lines 533-534). -/
structure ObjectEnv where
  head : Except ErrorKind Nat
  head2 : Except ErrorKind Nat
  getResult : Except ErrorKind Unit
  putResult : Except ErrorKind Unit
  createResult : Except ErrorKind Unit
  partGet : Nat → Except ErrorKind Unit
  partUpload : Nat → Except ErrorKind Unit
  completeResult : Except ErrorKind Unit
  abortResult : Except ErrorKind Unit

/-- The S3Migrator configuration fields the per-object paths consult. -/
structure MigratorConfig where
  chunk_size : Nat
  direct_read : Bool
  max_direct_size : Nat
  skip_existing : Bool
  deriving DecidableEq

/-- Python key.endswith of the single character "/" (src/main.py lines 347
and 437): true exactly when the key's last character is the slash. -/
def is_dir_marker (key : String) : Bool := key.data.getLast? == some '/'

/-- The skip decision of the existence check (src/main.py lines 343-380 and
433-455): performed only when skip_existing is set and the key is not a
directory marker (does not end in "/"); the object is skipped exactly when
head_object succeeded and the reported ContentLength equals the source
size.  Every error outcome of the check — the not-found class (NoSuchKey /
404 / 403) passed through inside, and any other exception caught by the
enclosing handler and logged — leads to not skipping. -/
def skip_decision (skip_existing : Bool) (key : String) (size : Nat)
    (head : Except ErrorKind Nat) : Bool :=
  skip_existing && !(is_dir_marker key) &&
    (match head with
     | Except.ok target_size => target_size == size
     | Except.error _ => false)

/-- The calls issued by one skip check: head_object exactly when the check
runs at all. -/
def check_calls (skip_existing : Bool) (key : String) : List S3Call :=
  if skip_existing && !(is_dir_marker key) then [S3Call.headObject key] else []

/-- The part loop of _multipart_copy (src/main.py lines 472-509) over a list
of 0-based part indices: parts are processed in order, and the first part
whose range get or upload fails raises out of the loop; the flag is true
when every part succeeded.  The byte range and part number attached to the
calls follow lines 474-479. -/
def parts_loop (env : ObjectEnv) (key : String) (chunk_size size : Nat) :
    List Nat → Bool × List S3Call
  | [] => (true, [])
  | i :: rest =>
    match env.partGet i with
    | Except.error _ =>
      (false, [S3Call.getObjectRange key (i * chunk_size)
        (min (i * chunk_size + chunk_size - 1) (size - 1))])
    | Except.ok _ =>
      match env.partUpload i with
      | Except.error _ =>
        (false, [S3Call.getObjectRange key (i * chunk_size)
          (min (i * chunk_size + chunk_size - 1) (size - 1)),
          S3Call.uploadPart key (i + 1)])
      | Except.ok _ =>
        ((parts_loop env key chunk_size size rest).1,
          S3Call.getObjectRange key (i * chunk_size)
              (min (i * chunk_size + chunk_size - 1) (size - 1)) ::
            S3Call.uploadPart key (i + 1) ::
            (parts_loop env key chunk_size size rest).2)

/-- _multipart_copy (src/main.py lines 421-535): re-run the skip check, open
a multipart session, upload all parts, and complete; on any failure after
the session opened, abort it (best-effort) and report (False, 0).  The
returned pair is ((copied, size), calls issued). -/
def multipart_copy (cfg : MigratorConfig) (key : String) (size : Nat)
    (env : ObjectEnv) : (Bool × Nat) × List S3Call :=
  if skip_decision cfg.skip_existing key size env.head2 then
    ((true, size), check_calls cfg.skip_existing key)
  else
    match env.createResult with
    | Except.error _ =>
      ((false, 0), check_calls cfg.skip_existing key ++ [S3Call.createMultipartUpload key])
    | Except.ok _ =>
      match parts_loop env key cfg.chunk_size size
          (List.range (part_count size cfg.chunk_size)), env.completeResult with
      | (true, tr), Except.ok _ =>
        ((true, size), check_calls cfg.skip_existing key ++
          S3Call.createMultipartUpload key :: tr ++ [S3Call.completeMultipartUpload key])
      | (true, tr), Except.error _ =>
        ((false, 0), check_calls cfg.skip_existing key ++
          S3Call.createMultipartUpload key :: tr ++ [S3Call.abortMultipartUpload key])
      | (false, tr), _ =>
        ((false, 0), check_calls cfg.skip_existing key ++
          S3Call.createMultipartUpload key :: tr ++ [S3Call.abortMultipartUpload key])

/-- _copy_object (src/main.py lines 329-419): skip check, then routing —
direct read-then-write when direct_read is set or size ≤ max_direct_size,
multipart otherwise.  Any direct-path error yields (False, 0). -/
def copy_object (cfg : MigratorConfig) (obj : ObjectRecord) (env : ObjectEnv) :
    (Bool × Nat) × List S3Call :=
  if skip_decision cfg.skip_existing obj.key obj.size env.head then
    ((true, obj.size), check_calls cfg.skip_existing obj.key)
  else if cfg.direct_read || decide (obj.size ≤ cfg.max_direct_size) then
    match env.getResult, env.putResult with
    | Except.error _, _ =>
      ((false, 0), check_calls cfg.skip_existing obj.key ++ [S3Call.getObject obj.key])
    | Except.ok _, Except.error _ =>
      ((false, 0), check_calls cfg.skip_existing obj.key ++
        [S3Call.getObject obj.key, S3Call.putObject obj.key])
    | Except.ok _, Except.ok _ =>
      ((true, obj.size), check_calls cfg.skip_existing obj.key ++
        [S3Call.getObject obj.key, S3Call.putObject obj.key])
  else
    ((multipart_copy cfg obj.key obj.size env).1,
      check_calls cfg.skip_existing obj.key ++ (multipart_copy cfg obj.key obj.size env).2)

/-- The TaskResult a worker returns for one dispatched object: _copy_object
returns normally, so the result is its (copied, bytes) pair. -/
def task_of_copy (r : (Bool × Nat) × List S3Call) : TaskResult :=
  TaskResult.value r.1.1 r.1.2

theorem parts_loop_no_complete (env : ObjectEnv) (key : String) (cs size : Nat) :
    ∀ (l : List Nat) (k : String),
      S3Call.completeMultipartUpload k ∉ (parts_loop env key cs size l).2 := by
  intro l
  induction l with
  | nil => intro k; simp [parts_loop]
  | cons i rest ih =>
    intro k
    cases hg : env.partGet i with
    | error e => simp [parts_loop, hg]
    | ok u =>
      cases hu : env.partUpload i with
      | error e => simp [parts_loop, hg, hu]
      | ok u2 => simp [parts_loop, hg, hu, ih k]

theorem parts_loop_fails (env : ObjectEnv) (key : String) (cs size : Nat) :
    ∀ l : List Nat,
      (∃ i ∈ l, (∃ e, env.partGet i = Except.error e) ∨
        ∃ e, env.partUpload i = Except.error e) →
      (parts_loop env key cs size l).1 = false := by
  intro l
  induction l with
  | nil =>
    rintro ⟨i, hi, -⟩
    simp at hi
  | cons j rest ih =>
    rintro ⟨i, hi, hf⟩
    rcases List.mem_cons.1 hi with rfl | hmem
    · rcases hf with ⟨e, he⟩ | ⟨e, he⟩
      · simp [parts_loop, he]
      · cases hg : env.partGet i with
        | error e2 => simp [parts_loop, hg]
        | ok u => simp [parts_loop, hg, he]
    · cases hg : env.partGet j with
      | error e2 => simp [parts_loop, hg]
      | ok u =>
        cases hu : env.partUpload j with
        | error e2 => simp [parts_loop, hg, hu]
        | ok u2 =>
          simp only [parts_loop, hg, hu]
          exact ih ⟨i, hmem, hf⟩

theorem check_calls_no_complete (se : Bool) (key k : String) :
    S3Call.completeMultipartUpload k ∉ check_calls se key := by
  unfold check_calls
  split <;> simp

theorem multipart_copy_fails (cfg : MigratorConfig) (key : String) (size : Nat)
    (env : ObjectEnv)
    (hskip : skip_decision cfg.skip_existing key size env.head2 = false)
    (hcreate : env.createResult = Except.ok ())
    (hfail : ∃ i ∈ List.range (part_count size cfg.chunk_size),
      (∃ e, env.partGet i = Except.error e) ∨ ∃ e, env.partUpload i = Except.error e) :
    (multipart_copy cfg key size env).1 = (false, 0) ∧
    S3Call.completeMultipartUpload key ∉ (multipart_copy cfg key size env).2 ∧
    S3Call.abortMultipartUpload key ∈ (multipart_copy cfg key size env).2 := by
  have hpl := parts_loop_fails env key cfg.chunk_size size _ hfail
  have hnc := parts_loop_no_complete env key cfg.chunk_size size
    (List.range (part_count size cfg.chunk_size)) key
  rcases hP : parts_loop env key cfg.chunk_size size (List.range (part_count size cfg.chunk_size))
    with ⟨b, tr⟩
  rw [hP] at hpl hnc
  simp at hpl hnc
  subst hpl
  have key_eq : multipart_copy cfg key size env =
      ((false, 0), check_calls cfg.skip_existing key ++
        S3Call.createMultipartUpload key :: tr ++ [S3Call.abortMultipartUpload key]) := by
    unfold multipart_copy
    rw [hskip, hcreate, hP]
    simp
  refine ⟨by rw [key_eq], ?_, ?_⟩
  · rw [key_eq]
    have hcc := check_calls_no_complete cfg.skip_existing key key
    simp [hcc, hnc]
  · rw [key_eq]
    simp

/-- C6: if the multipart session was opened (create succeeded, skip check
declined) and some part's range read or upload ultimately fails, then the
object is reported failed ((False, 0)), complete_multipart_upload is never
called, abort_multipart_upload is attempted, and the failed outcome stands
whatever the abort call's own result is (an abort failure is only logged). -/
theorem multipart_abort_on_failure (cfg : MigratorConfig) (key : String) (size : Nat)
    (env : ObjectEnv)
    (hskip : skip_decision cfg.skip_existing key size env.head2 = false)
    (hcreate : env.createResult = Except.ok ())
    (hfail : ∃ i ∈ List.range (part_count size cfg.chunk_size),
      (∃ e, env.partGet i = Except.error e) ∨ ∃ e, env.partUpload i = Except.error e) :
    (multipart_copy cfg key size env).1 = (false, 0) ∧
    S3Call.completeMultipartUpload key ∉ (multipart_copy cfg key size env).2 ∧
    S3Call.abortMultipartUpload key ∈ (multipart_copy cfg key size env).2 ∧
    ∀ a, (multipart_copy cfg key size { env with abortResult := a }).1 = (false, 0) := by
  have h := multipart_copy_fails cfg key size env hskip hcreate hfail
  refine ⟨h.1, h.2.1, h.2.2, fun a => ?_⟩
  exact (multipart_copy_fails cfg key size { env with abortResult := a }
    hskip hcreate hfail).1

/-- Witness for C6 at a 5-byte object, chunk size 2 (3 parts), skip-existing
off, with part 0's range read failing on a connection error. -/
theorem multipart_abort_on_failure_witness :
    (multipart_copy ⟨2, false, 0, false⟩ "k" 5
        ⟨Except.error (ErrorKind.clientError "404"), Except.error (ErrorKind.clientError "404"),
         Except.ok (), Except.ok (), Except.ok (),
         fun _ => Except.error ErrorKind.connectionError, fun _ => Except.ok (),
         Except.ok (), Except.ok ()⟩).1 = (false, 0) ∧
    S3Call.completeMultipartUpload "k" ∉ (multipart_copy ⟨2, false, 0, false⟩ "k" 5
        ⟨Except.error (ErrorKind.clientError "404"), Except.error (ErrorKind.clientError "404"),
         Except.ok (), Except.ok (), Except.ok (),
         fun _ => Except.error ErrorKind.connectionError, fun _ => Except.ok (),
         Except.ok (), Except.ok ()⟩).2 ∧
    S3Call.abortMultipartUpload "k" ∈ (multipart_copy ⟨2, false, 0, false⟩ "k" 5
        ⟨Except.error (ErrorKind.clientError "404"), Except.error (ErrorKind.clientError "404"),
         Except.ok (), Except.ok (), Except.ok (),
         fun _ => Except.error ErrorKind.connectionError, fun _ => Except.ok (),
         Except.ok (), Except.ok ()⟩).2 :=
  ⟨(multipart_abort_on_failure ⟨2, false, 0, false⟩ "k" 5 _ (by decide) rfl
      ⟨0, by decide, Or.inl ⟨ErrorKind.connectionError, rfl⟩⟩).1,
   (multipart_abort_on_failure ⟨2, false, 0, false⟩ "k" 5 _ (by decide) rfl
      ⟨0, by decide, Or.inl ⟨ErrorKind.connectionError, rfl⟩⟩).2.1,
   (multipart_abort_on_failure ⟨2, false, 0, false⟩ "k" 5 _ (by decide) rfl
      ⟨0, by decide, Or.inl ⟨ErrorKind.connectionError, rfl⟩⟩).2.2.1⟩

theorem copy_object_skips (cfg : MigratorConfig) (obj : ObjectRecord) (env : ObjectEnv)
    (hse : cfg.skip_existing = true)
    (hkey : is_dir_marker obj.key = false)
    (hhead : env.head = Except.ok obj.size) :
    copy_object cfg obj env = ((true, obj.size), [S3Call.headObject obj.key]) := by
  have hsd : skip_decision cfg.skip_existing obj.key obj.size env.head = true := by
    simp [skip_decision, hse, hkey, hhead]
  unfold copy_object
  rw [hsd]
  simp [check_calls, hse, hkey]

theorem transfer_attempted_of_no_skip (cfg : MigratorConfig) (obj : ObjectRecord)
    (env : ObjectEnv)
    (h1 : skip_decision cfg.skip_existing obj.key obj.size env.head = false)
    (h2 : skip_decision cfg.skip_existing obj.key obj.size env.head2 = false) :
    S3Call.getObject obj.key ∈ (copy_object cfg obj env).2 ∨
    S3Call.createMultipartUpload obj.key ∈ (copy_object cfg obj env).2 := by
  unfold copy_object
  rw [h1]
  simp only [Bool.false_eq_true, if_false]
  by_cases hroute : (cfg.direct_read || decide (obj.size ≤ cfg.max_direct_size)) = true
  · rw [if_pos hroute]
    left
    cases env.getResult with
    | error e => simp
    | ok u =>
      cases env.putResult with
      | error e => simp
      | ok u2 => simp
  · rw [if_neg hroute]
    right
    unfold multipart_copy
    rw [h2]
    simp only [Bool.false_eq_true, if_false]
    cases hc : env.createResult with
    | error e => simp
    | ok u =>
      rcases hP : parts_loop env obj.key cfg.chunk_size obj.size
        (List.range (part_count obj.size cfg.chunk_size)) with ⟨b, tr⟩
      cases b <;> cases hcomp : env.completeResult <;> simp

/-- C5: with skip-existing enabled and a non-directory-marker key — when the
target head_object succeeds with the source size, the dispatcher skips the
object, reporting success with the size and issuing only the head call (no
get_object or put_object); when the reported size differs, or head_object
fails with any error (the not-found class or any other error, which is
logged), a transfer is attempted (a whole-object get_object or a
create_multipart_upload is issued).  env.head2 = env.head states that the
target is unchanged between the dispatcher's check and the multipart
re-check. -/
theorem skip_existing_policy (cfg : MigratorConfig) (obj : ObjectRecord) (env : ObjectEnv)
    (hse : cfg.skip_existing = true)
    (hkey : is_dir_marker obj.key = false)
    (hsame : env.head2 = env.head) :
    (env.head = Except.ok obj.size →
      copy_object cfg obj env = ((true, obj.size), [S3Call.headObject obj.key])) ∧
    (∀ t, env.head = Except.ok t → t ≠ obj.size →
      S3Call.getObject obj.key ∈ (copy_object cfg obj env).2 ∨
      S3Call.createMultipartUpload obj.key ∈ (copy_object cfg obj env).2) ∧
    (∀ e, env.head = Except.error e →
      S3Call.getObject obj.key ∈ (copy_object cfg obj env).2 ∨
      S3Call.createMultipartUpload obj.key ∈ (copy_object cfg obj env).2) := by
  refine ⟨fun hh => copy_object_skips cfg obj env hse hkey hh, ?_, ?_⟩
  · intro t hh ht
    have h1 : skip_decision cfg.skip_existing obj.key obj.size env.head = false := by
      simp [skip_decision, hse, hkey, hh, beq_iff_eq, ht]
    have h2 : skip_decision cfg.skip_existing obj.key obj.size env.head2 = false := by
      rw [hsame]
      exact h1
    exact transfer_attempted_of_no_skip cfg obj env h1 h2
  · intro e hh
    have h1 : skip_decision cfg.skip_existing obj.key obj.size env.head = false := by
      simp [skip_decision, hh]
    have h2 : skip_decision cfg.skip_existing obj.key obj.size env.head2 = false := by
      rw [hsame]
      exact h1
    exact transfer_attempted_of_no_skip cfg obj env h1 h2

/-- Witness for C5 at key "a", size 3, with the default configuration:
target reports size 3 (skip, only head issued), target reports size 5
(transfer attempted), target head fails (transfer attempted). -/
theorem skip_existing_policy_witness :
    copy_object ⟨8388608, false, 524288000, true⟩ ⟨"a", 3⟩
        ⟨Except.ok 3, Except.ok 3, Except.ok (), Except.ok (), Except.ok (),
         fun _ => Except.ok (), fun _ => Except.ok (), Except.ok (), Except.ok ()⟩
      = ((true, 3), [S3Call.headObject "a"]) ∧
    (S3Call.getObject "a" ∈ (copy_object ⟨8388608, false, 524288000, true⟩ ⟨"a", 3⟩
        ⟨Except.ok 5, Except.ok 5, Except.ok (), Except.ok (), Except.ok (),
         fun _ => Except.ok (), fun _ => Except.ok (), Except.ok (), Except.ok ()⟩).2 ∨
     S3Call.createMultipartUpload "a" ∈ (copy_object ⟨8388608, false, 524288000, true⟩ ⟨"a", 3⟩
        ⟨Except.ok 5, Except.ok 5, Except.ok (), Except.ok (), Except.ok (),
         fun _ => Except.ok (), fun _ => Except.ok (), Except.ok (), Except.ok ()⟩).2) ∧
    (S3Call.getObject "a" ∈ (copy_object ⟨8388608, false, 524288000, true⟩ ⟨"a", 3⟩
        ⟨Except.error ErrorKind.connectionError, Except.error ErrorKind.connectionError,
         Except.ok (), Except.ok (), Except.ok (),
         fun _ => Except.ok (), fun _ => Except.ok (), Except.ok (), Except.ok ()⟩).2 ∨
     S3Call.createMultipartUpload "a" ∈ (copy_object ⟨8388608, false, 524288000, true⟩ ⟨"a", 3⟩
        ⟨Except.error ErrorKind.connectionError, Except.error ErrorKind.connectionError,
         Except.ok (), Except.ok (), Except.ok (),
         fun _ => Except.ok (), fun _ => Except.ok (), Except.ok (), Except.ok ()⟩).2) :=
  ⟨(skip_existing_policy _ _ _ rfl (by decide) rfl).1 rfl,
   (skip_existing_policy _ _ _ rfl (by decide) rfl).2.1 5 rfl (by decide),
   (skip_existing_policy _ _ _ rfl (by decide) rfl).2.2 ErrorKind.connectionError rfl⟩

theorem migrate_bucket_bytes_aux (res : ObjectRecord → TaskResult) :
    ∀ (objects : List ObjectRecord) (r : BucketReport),
      (∀ o ∈ objects, res o = TaskResult.value true o.size) →
      (objects.foldl (fun r obj => collect_result r obj (res obj)) r).total_bytes
        = r.total_bytes + (objects.map ObjectRecord.size).sum := by
  intro objects
  induction objects with
  | nil =>
    intro r h
    simp
  | cons a l ih =>
    intro r h
    rw [List.foldl_cons, h a (List.mem_cons_self a l)]
    rw [ih _ fun o ho => h o (List.mem_cons_of_mem a ho)]
    simp [collect_result]
    omega

/-- C9: an object that the skip check decides to skip yields success with
bytes equal to the source size while issuing only the head_object call, and
migrate_bucket's per-bucket byte total consequently equals the sum of the
source sizes even though nothing was transferred: the reported byte total
counts bytes of objects that were never copied. -/
theorem skipped_bytes_counted (cfg : MigratorConfig) (objects : List ObjectRecord)
    (env : ObjectRecord → ObjectEnv)
    (hse : cfg.skip_existing = true)
    (hall : ∀ o ∈ objects, is_dir_marker o.key = false ∧ (env o).head = Except.ok o.size) :
    (∀ o ∈ objects, copy_object cfg o (env o) = ((true, o.size), [S3Call.headObject o.key])) ∧
    (migrate_bucket objects fun o => task_of_copy (copy_object cfg o (env o))).total_bytes
      = (objects.map ObjectRecord.size).sum := by
  have hco : ∀ o ∈ objects,
      copy_object cfg o (env o) = ((true, o.size), [S3Call.headObject o.key]) :=
    fun o ho => copy_object_skips cfg o (env o) hse (hall o ho).1 (hall o ho).2
  refine ⟨hco, ?_⟩
  have hres : ∀ o ∈ objects,
      task_of_copy (copy_object cfg o (env o)) = TaskResult.value true o.size := by
    intro o ho
    rw [task_of_copy, hco o ho]
  unfold migrate_bucket
  have h := migrate_bucket_bytes_aux _ objects ⟨0, 0, 0, []⟩ hres
  simpa using h

/-- Witness for C9 at one skipped 3-byte object "a". -/
theorem skipped_bytes_counted_witness :
    copy_object ⟨8388608, false, 524288000, true⟩ ⟨"a", 3⟩
        ⟨Except.ok 3, Except.ok 3, Except.ok (), Except.ok (), Except.ok (),
         fun _ => Except.ok (), fun _ => Except.ok (), Except.ok (), Except.ok ()⟩
      = ((true, 3), [S3Call.headObject "a"]) ∧
    (migrate_bucket [⟨"a", 3⟩] fun o => task_of_copy (copy_object
        ⟨8388608, false, 524288000, true⟩ o
        ⟨Except.ok 3, Except.ok 3, Except.ok (), Except.ok (), Except.ok (),
         fun _ => Except.ok (), fun _ => Except.ok (), Except.ok (), Except.ok ()⟩)).total_bytes
      = ([(⟨"a", 3⟩ : ObjectRecord)].map ObjectRecord.size).sum :=
  ⟨(skipped_bytes_counted ⟨8388608, false, 524288000, true⟩ [⟨"a", 3⟩]
      (fun _ => ⟨Except.ok 3, Except.ok 3, Except.ok (), Except.ok (), Except.ok (),
        fun _ => Except.ok (), fun _ => Except.ok (), Except.ok (), Except.ok ()⟩) rfl
      (fun o ho => by
        rcases List.mem_singleton.1 ho with rfl
        exact ⟨by decide, rfl⟩)).1 ⟨"a", 3⟩ (List.mem_singleton.2 rfl),
   (skipped_bytes_counted ⟨8388608, false, 524288000, true⟩ [⟨"a", 3⟩]
      (fun _ => ⟨Except.ok 3, Except.ok 3, Except.ok (), Except.ok (), Except.ok (),
        fun _ => Except.ok (), fun _ => Except.ok (), Except.ok (), Except.ok ()⟩) rfl
      (fun o ho => by
        rcases List.mem_singleton.1 ho with rfl
        exact ⟨by decide, rfl⟩)).2⟩

/-- Target-bucket state: an association list from key to stored object size;
later writes shadow earlier entries. -/
abbrev TargetState := List (String × Nat)

def lookupKey : TargetState → String → Option Nat
  | [], _ => none
  | (k, v) :: rest, key => if k = key then some v else lookupKey rest key

/-- head_object against an explicit target state: the stored ContentLength
when the key exists, a 404 client error otherwise. -/
def head_of (t : TargetState) (key : String) : Except ErrorKind Nat :=
  match lookupKey t key with
  | some n => Except.ok n
  | none => Except.error (ErrorKind.clientError "404")

/-- The ObjectEnv seen by _copy_object when every remote call succeeds and
the target bucket holds state t; both skip checks consult t. -/
def ideal_env (t : TargetState) (key : String) : ObjectEnv :=
  ⟨head_of t key, head_of t key, Except.ok (), Except.ok (), Except.ok (),
   fun _ => Except.ok (), fun _ => Except.ok (), Except.ok (), Except.ok ()⟩

/-- Data-moving calls: whole-object get_object / put_object and per-part
range get_object / upload_part, as opposed to metadata calls. -/
def isDataCall : S3Call → Bool
  | S3Call.getObject _ => true
  | S3Call.putObject _ => true
  | S3Call.getObjectRange _ _ _ => true
  | S3Call.uploadPart _ _ => true
  | _ => false

/-- A trace creates the target object exactly when it performed the
whole-object put or completed a multipart session for the key. -/
def writes_object (key : String) (trace : List S3Call) : Bool :=
  trace.contains (S3Call.putObject key) ||
    trace.contains (S3Call.completeMultipartUpload key)

/-- One object processed against target state t with all remote calls
succeeding: the updated target state, the bytes moved over the network
(0 when the object was skipped), and the calls issued. -/
def run_object (cfg : MigratorConfig) (t : TargetState) (o : ObjectRecord) :
    TargetState × Nat × List S3Call :=
  ((if writes_object o.key (copy_object cfg o (ideal_env t o.key)).2
      then (o.key, o.size) :: t else t),
   (if writes_object o.key (copy_object cfg o (ideal_env t o.key)).2 then o.size else 0),
   (copy_object cfg o (ideal_env t o.key)).2)

/-- Outcome of one full migrate_bucket pass in the ideal all-success world. -/
structure RunResult where
  target : TargetState
  moved_bytes : Nat
  calls : List S3Call
  deriving DecidableEq

/-- A pass of migrate_bucket over src against initial target state t with
every remote call succeeding, processing objects in order. -/
def run_bucket (cfg : MigratorConfig) : TargetState → List ObjectRecord → RunResult
  | t, [] => ⟨t, 0, []⟩
  | t, o :: rest =>
    ⟨(run_bucket cfg (run_object cfg t o).1 rest).target,
     (run_object cfg t o).2.1 + (run_bucket cfg (run_object cfg t o).1 rest).moved_bytes,
     (run_object cfg t o).2.2 ++ (run_bucket cfg (run_object cfg t o).1 rest).calls⟩

theorem parts_loop_all_ok (env : ObjectEnv) (key : String) (cs size : Nat)
    (hg : ∀ i, env.partGet i = Except.ok ()) (hu : ∀ i, env.partUpload i = Except.ok ()) :
    ∀ l, (parts_loop env key cs size l).1 = true := by
  intro l
  induction l with
  | nil => simp [parts_loop]
  | cons i rest ih => simp [parts_loop, hg i, hu i, ih]

theorem writes_object_iff (key : String) (tr : List S3Call) :
    writes_object key tr = true ↔
      S3Call.putObject key ∈ tr ∨ S3Call.completeMultipartUpload key ∈ tr := by
  unfold writes_object
  simp [List.contains_iff_exists_mem_beq, beq_iff_eq]

theorem copy_object_direct_ok (cfg : MigratorConfig) (obj : ObjectRecord) (env : ObjectEnv)
    (h1 : skip_decision cfg.skip_existing obj.key obj.size env.head = false)
    (hroute : (cfg.direct_read || decide (obj.size ≤ cfg.max_direct_size)) = true)
    (hget : env.getResult = Except.ok ()) (hput : env.putResult = Except.ok ()) :
    copy_object cfg obj env = ((true, obj.size), check_calls cfg.skip_existing obj.key ++
      [S3Call.getObject obj.key, S3Call.putObject obj.key]) := by
  unfold copy_object
  rw [h1]
  simp only [Bool.false_eq_true, if_false]
  rw [if_pos hroute, hget, hput]

theorem copy_object_multipart_ok (cfg : MigratorConfig) (obj : ObjectRecord)
    (env : ObjectEnv) (tr : List S3Call)
    (h1 : skip_decision cfg.skip_existing obj.key obj.size env.head = false)
    (hroute : (cfg.direct_read || decide (obj.size ≤ cfg.max_direct_size)) = false)
    (h2 : skip_decision cfg.skip_existing obj.key obj.size env.head2 = false)
    (hcreate : env.createResult = Except.ok ())
    (hparts : parts_loop env obj.key cfg.chunk_size obj.size
      (List.range (part_count obj.size cfg.chunk_size)) = (true, tr))
    (hcomp : env.completeResult = Except.ok ()) :
    copy_object cfg obj env = ((true, obj.size), check_calls cfg.skip_existing obj.key ++
      (check_calls cfg.skip_existing obj.key ++ S3Call.createMultipartUpload obj.key ::
        tr ++ [S3Call.completeMultipartUpload obj.key])) := by
  unfold copy_object multipart_copy
  rw [h1, h2, hcreate, hparts, hcomp]
  simp [hroute]

theorem lookupKey_cons_ne (t : TargetState) (k k2 : String) (v : Nat) (h : k ≠ k2) :
    lookupKey ((k, v) :: t) k2 = lookupKey t k2 := by
  simp [lookupKey, h]

theorem run_object_preserves (cfg : MigratorConfig) (t : TargetState) (o : ObjectRecord)
    (k : String) (hk : o.key ≠ k) :
    lookupKey (run_object cfg t o).1 k = lookupKey t k := by
  unfold run_object
  dsimp only
  split
  · exact lookupKey_cons_ne t o.key k o.size hk
  · rfl

theorem run_object_establishes (cfg : MigratorConfig) (t : TargetState) (o : ObjectRecord) :
    lookupKey (run_object cfg t o).1 o.key = some o.size := by
  cases hskip : skip_decision cfg.skip_existing o.key o.size (head_of t o.key) with
  | true =>
    have hl : lookupKey t o.key = some o.size := by
      unfold skip_decision head_of at hskip
      cases hlk : lookupKey t o.key with
      | none =>
        rw [hlk] at hskip
        simp at hskip
      | some n =>
        rw [hlk] at hskip
        simp only [Bool.and_eq_true, beq_iff_eq] at hskip
        rw [hskip.2]
    have hcopy : copy_object cfg o (ideal_env t o.key) =
        ((true, o.size), check_calls cfg.skip_existing o.key) := by
      unfold copy_object
      simp only [ideal_env]
      rw [hskip]
      simp
    have hnw : ¬(S3Call.putObject o.key ∈ check_calls cfg.skip_existing o.key ∨
        S3Call.completeMultipartUpload o.key ∈ check_calls cfg.skip_existing o.key) := by
      unfold check_calls
      split <;> simp
    have hw : writes_object o.key (check_calls cfg.skip_existing o.key) = false := by
      cases hwv : writes_object o.key (check_calls cfg.skip_existing o.key) with
      | false => rfl
      | true => exact absurd ((writes_object_iff _ _).1 hwv) hnw
    unfold run_object
    dsimp only
    rw [hcopy]
    dsimp only
    rw [hw]
    simp [hl]
  | false =>
    have hw : writes_object o.key (copy_object cfg o (ideal_env t o.key)).2 = true := by
      by_cases hroute : (cfg.direct_read || decide (o.size ≤ cfg.max_direct_size)) = true
      · have hcopy := copy_object_direct_ok cfg o (ideal_env t o.key) hskip hroute rfl rfl
        rw [hcopy]
        apply (writes_object_iff _ _).2
        left
        simp
      · have hrf : (cfg.direct_read || decide (o.size ≤ cfg.max_direct_size)) = false := by
          cases hx : (cfg.direct_read || decide (o.size ≤ cfg.max_direct_size)) with
          | false => rfl
          | true => exact absurd hx hroute
        have hpl1 := parts_loop_all_ok (ideal_env t o.key) o.key cfg.chunk_size o.size
          (fun i => rfl) (fun i => rfl) (List.range (part_count o.size cfg.chunk_size))
        have hparts : parts_loop (ideal_env t o.key) o.key cfg.chunk_size o.size
            (List.range (part_count o.size cfg.chunk_size)) =
            (true, (parts_loop (ideal_env t o.key) o.key cfg.chunk_size o.size
              (List.range (part_count o.size cfg.chunk_size))).2) := by
          rw [← hpl1]
        have hcopy := copy_object_multipart_ok cfg o (ideal_env t o.key) _ hskip hrf hskip
          rfl hparts rfl
        rw [hcopy]
        apply (writes_object_iff _ _).2
        right
        simp
    unfold run_object
    dsimp only
    rw [hw]
    simp [lookupKey]

theorem run_bucket_preserves (cfg : MigratorConfig) (k : String) :
    ∀ (src : List ObjectRecord) (t : TargetState),
      (∀ o ∈ src, o.key ≠ k) →
      lookupKey (run_bucket cfg t src).target k = lookupKey t k := by
  intro src
  induction src with
  | nil => intro t h; rfl
  | cons o rest ih =>
    intro t h
    unfold run_bucket
    dsimp only
    rw [ih _ fun o2 ho2 => h o2 (List.mem_cons_of_mem o ho2)]
    exact run_object_preserves cfg t o k (h o (List.mem_cons_self o rest))

theorem run_bucket_establishes (cfg : MigratorConfig) :
    ∀ (src : List ObjectRecord) (t : TargetState),
      (src.map ObjectRecord.key).Nodup →
      ∀ o ∈ src, lookupKey (run_bucket cfg t src).target o.key = some o.size := by
  intro src
  induction src with
  | nil =>
    intro t hnd o ho
    simp at ho
  | cons a rest ih =>
    intro t hnd o ho
    rw [List.map_cons, List.nodup_cons] at hnd
    rcases List.mem_cons.1 ho with rfl | hmem
    · unfold run_bucket
      dsimp only
      have hne : ∀ o2 ∈ rest, o2.key ≠ o.key := by
        intro o2 ho2 heq
        exact hnd.1 (heq ▸ List.mem_map_of_mem ObjectRecord.key ho2)
      rw [run_bucket_preserves cfg o.key rest _ hne]
      exact run_object_establishes cfg t o
    · unfold run_bucket
      dsimp only
      exact ih _ hnd.2 o hmem

theorem run_bucket_all_skip (cfg : MigratorConfig) (hse : cfg.skip_existing = true) :
    ∀ (src : List ObjectRecord) (t : TargetState),
      (∀ o ∈ src, is_dir_marker o.key = false ∧ lookupKey t o.key = some o.size) →
      run_bucket cfg t src = ⟨t, 0, src.map fun o => S3Call.headObject o.key⟩ := by
  intro src
  induction src with
  | nil => intro t h; rfl
  | cons a rest ih =>
    intro t h
    have ha := h a (List.mem_cons_self a rest)
    have hhead : head_of t a.key = Except.ok a.size := by
      unfold head_of
      rw [ha.2]
    have hcopy : copy_object cfg a (ideal_env t a.key) =
        ((true, a.size), [S3Call.headObject a.key]) :=
      copy_object_skips cfg a (ideal_env t a.key) hse ha.1 hhead
    have hnw : ¬(S3Call.putObject a.key ∈ [S3Call.headObject a.key] ∨
        S3Call.completeMultipartUpload a.key ∈ [S3Call.headObject a.key]) := by
      simp
    have hw : writes_object a.key [S3Call.headObject a.key] = false := by
      cases hwv : writes_object a.key [S3Call.headObject a.key] with
      | false => rfl
      | true => exact absurd ((writes_object_iff _ _).1 hwv) hnw
    have hro : run_object cfg t a = (t, 0, [S3Call.headObject a.key]) := by
      unfold run_object
      rw [hcopy]
      dsimp only
      rw [hw]
      simp
    unfold run_bucket
    rw [hro]
    dsimp only
    rw [ih t fun o2 ho2 => h o2 (List.mem_cons_of_mem a ho2)]
    simp

/-- C7 counterexample: a source holding the single directory-marker object
"d/" of size 1.  The first run (from an empty target) transfers it
successfully, yet the second run over the unchanged source re-issues the
get_object and put_object data calls and moves 1 byte instead of 0, because
marker keys bypass the skip-existing check (src/main.py line 347). -/
theorem second_run_counterexample :
    (copy_object ⟨8388608, false, 524288000, true⟩ ⟨"d/", 1⟩ (ideal_env [] "d/")).1
      = (true, 1) ∧
    (run_bucket ⟨8388608, false, 524288000, true⟩
        (run_bucket ⟨8388608, false, 524288000, true⟩ [] [⟨"d/", 1⟩]).target
        [⟨"d/", 1⟩]).moved_bytes = 1 ∧
    S3Call.getObject "d/" ∈ (run_bucket ⟨8388608, false, 524288000, true⟩
        (run_bucket ⟨8388608, false, 524288000, true⟩ [] [⟨"d/", 1⟩]).target
        [⟨"d/", 1⟩]).calls ∧
    S3Call.putObject "d/" ∈ (run_bucket ⟨8388608, false, 524288000, true⟩
        (run_bucket ⟨8388608, false, 524288000, true⟩ [] [⟨"d/", 1⟩]).target
        [⟨"d/", 1⟩]).calls := by
  refine ⟨rfl, rfl, ?_, ?_⟩ <;> decide

/-- C7 (amended): with skip-existing enabled, pairwise-distinct keys, and no
key ending in "/", the second run over the unchanged source after any first
run (all remote calls succeeding) skips every object: it moves zero bytes,
issues no data-moving call (only head_object checks), and leaves the target
state unchanged.  Directory-marker keys are excluded, as forced by the
counterexample: they bypass the skip check and are re-transferred. -/
theorem second_run_idempotent (cfg : MigratorConfig) (src : List ObjectRecord)
    (t0 : TargetState)
    (hse : cfg.skip_existing = true)
    (hnm : ∀ o ∈ src, is_dir_marker o.key = false)
    (hnd : (src.map ObjectRecord.key).Nodup) :
    (run_bucket cfg (run_bucket cfg t0 src).target src).moved_bytes = 0 ∧
    (∀ c ∈ (run_bucket cfg (run_bucket cfg t0 src).target src).calls,
      isDataCall c = false) ∧
    (run_bucket cfg (run_bucket cfg t0 src).target src).target
      = (run_bucket cfg t0 src).target := by
  have hpost : ∀ o ∈ src, is_dir_marker o.key = false ∧
      lookupKey (run_bucket cfg t0 src).target o.key = some o.size :=
    fun o ho => ⟨hnm o ho, run_bucket_establishes cfg src t0 hnd o ho⟩
  have h2 := run_bucket_all_skip cfg hse src (run_bucket cfg t0 src).target hpost
  rw [h2]
  refine ⟨rfl, ?_, rfl⟩
  intro c hc
  simp only [List.mem_map] at hc
  rcases hc with ⟨o, ho, rfl⟩
  rfl

/-- Witness for C7 (amended) at a single ordinary object "a.txt" of size 3,
starting from the empty target. -/
theorem second_run_idempotent_witness :
    (run_bucket ⟨8388608, false, 524288000, true⟩
        (run_bucket ⟨8388608, false, 524288000, true⟩ [] [⟨"a.txt", 3⟩]).target
        [⟨"a.txt", 3⟩]).moved_bytes = 0 ∧
    (∀ c ∈ (run_bucket ⟨8388608, false, 524288000, true⟩
        (run_bucket ⟨8388608, false, 524288000, true⟩ [] [⟨"a.txt", 3⟩]).target
        [⟨"a.txt", 3⟩]).calls, isDataCall c = false) ∧
    (run_bucket ⟨8388608, false, 524288000, true⟩
        (run_bucket ⟨8388608, false, 524288000, true⟩ [] [⟨"a.txt", 3⟩]).target
        [⟨"a.txt", 3⟩]).target
      = (run_bucket ⟨8388608, false, 524288000, true⟩ [] [⟨"a.txt", 3⟩]).target :=
  second_run_idempotent ⟨8388608, false, 524288000, true⟩ [⟨"a.txt", 3⟩] [] rfl
    (by decide) (by decide)

end CloneS3
